import Mathlib

/-!
Verification of the route-planning service core (`main.py`) against its
specification.  The development embeds, over the real numbers, the pure
computational core of the service: the haversine distance evaluator, the
EV-charger proximity search (filter by radius, rounding of reported
distances, stable sort by distance), the two list-truncation policies
(head+tail for route steps, top-N for peak search), and the control-flow
of the `geocode_location` / `get_route` exception handlers.
-/

open Real

namespace RoutePlanning

/-- Degrees-to-radians conversion, modelling Python `math.radians`. -/
noncomputable def radians (x : ℝ) : ℝ := x * π / 180

/-- Two-argument arctangent, modelling Python `math.atan2 y x` (note the
argument order: `y` first).  Matches the C library convention, including
`atan2 0 0 = 0`. -/
noncomputable def atan2 (y x : ℝ) : ℝ :=
  if 0 < x then arctan (y / x)
  else if x < 0 ∧ 0 ≤ y then arctan (y / x) + π
  else if x < 0 then arctan (y / x) - π
  else if 0 < y then π / 2
  else if y < 0 then -(π / 2)
  else 0

/-- The intermediate quantity `a` computed inside `haversine` in `main.py`:
`a = sin(dlat / 2) ** 2 + cos(radians(lat1)) * cos(radians(lat2)) * sin(dlon / 2) ** 2`
with `dlat = radians(lat2 - lat1)` and `dlon = radians(lon2 - lon1)`. -/
noncomputable def hava (lat1 lon1 lat2 lon2 : ℝ) : ℝ :=
  sin (radians (lat2 - lat1) / 2) ^ 2 +
    cos (radians lat1) * cos (radians lat2) * sin (radians (lon2 - lon1) / 2) ^ 2

/-- The haversine great-circle distance from `main.py`:
`R * 2 * atan2(sqrt(a), sqrt(1 - a))` with Earth radius `R = 6371` km. -/
noncomputable def haversine (lat1 lon1 lat2 lon2 : ℝ) : ℝ :=
  6371 * 2 * atan2 (Real.sqrt (hava lat1 lon1 lat2 lon2))
    (Real.sqrt (1 - hava lat1 lon1 lat2 lon2))

/-- Rounding to two decimal places, modelling Python `round(x, 2)` on the
exact real value.  (Python rounds ties to even; `round` here rounds ties
up.  The two agree away from exact ties, and no claim below depends on a
tie.) -/
noncomputable def round2 (x : ℝ) : ℝ := (round (x * 100) : ℤ) / 100

/-- The head+tail truncation policy applied to route steps on line 127 of
`main.py`: `steps[:5] + steps[-5:] if len(steps) > 10 else steps`. -/
def shapeHeadTail {α : Type _} (steps : List α) : List α :=
  if steps.length > 10 then steps.take 5 ++ steps.drop (steps.length - 5) else steps

/-- The top-N truncation policy applied to peak-search results on line 178
of `main.py` (`peaks[:3]`), in the parametrised form the specification
calls `shapeTopN`. -/
def shapeTopN {α : Type _} (seq : List α) (n : ℕ) : List α := seq.take n

/-- A raw record of the charger dataset (`ev_chargers.json`).  In the JSON,
`latitude` and `longitude` live in an optional nested `gps` object; the code
reads them as `site.get("gps", {}).get("latitude")`, so an absent `gps`
object is indistinguishable from absent coordinates and the two optional
coordinates are flattened into the record here. -/
structure ChargerSite where
  name : Option String
  gps_latitude : Option ℝ
  gps_longitude : Option ℝ
  status : Option String

/-- The response record `EVChargerSite` from `main.py`. -/
structure EVChargerSite where
  name : String
  lat : ℝ
  lon : ℝ
  distance_km : ℝ
  status : String

/-- Comparison by reported distance, the sort key of `get_ev_chargers`
(`key=lambda x: x.distance_km`). -/
def distLE (a b : EVChargerSite) : Prop := a.distance_km ≤ b.distance_km

noncomputable instance : DecidableRel distLE :=
  fun a b => inferInstanceAs (Decidable (a.distance_km ≤ b.distance_km))

instance : IsTotal EVChargerSite distLE := ⟨fun a b => le_total a.distance_km b.distance_km⟩

instance : IsTrans EVChargerSite distLE := ⟨fun _ _ _ h h' => le_trans h h'⟩

/-- The body of the `for site in CHARGER_DATA` loop of `get_ev_chargers` in
`main.py`: when both coordinates are present and the haversine distance
`dist` from the query point is at most `radius_km`, produce the response
record (name defaulting to `"Unnamed Site"`, status to `"unknown"`, and
`dist` rounded to two decimals); otherwise contribute nothing. -/
noncomputable def chargerEntry (lat lon radius_km : ℝ) (site : ChargerSite) :
    Option EVChargerSite :=
  match site.gps_latitude, site.gps_longitude with
  | some site_lat, some site_lon =>
    if haversine lat lon site_lat site_lon ≤ radius_km then
      some ⟨site.name.getD "Unnamed Site", site_lat, site_lon,
        round2 (haversine lat lon site_lat site_lon), site.status.getD "unknown"⟩
    else none
  | _, _ => none

/-- The `nearby` list accumulated by the loop in `get_ev_chargers`. -/
noncomputable def nearbyChargers (data : List ChargerSite) (lat lon radius_km : ℝ) :
    List EVChargerSite :=
  data.filterMap (chargerEntry lat lon radius_km)

/-- The EV-charger proximity search from `main.py` (`get_ev_chargers`):
the accumulated `nearby` list sorted ascending by `distance_km`
(`sorted(nearby, key=lambda x: x.distance_km)`).  Python `sorted` is a
stable sort, as is `List.insertionSort`. -/
noncomputable def get_ev_chargers (data : List ChargerSite) (lat lon radius_km : ℝ) :
    List EVChargerSite :=
  List.insertionSort distLE (nearbyChargers data lat lon radius_km)

/-! ### Basic lemmas about `atan2` and the haversine intermediate `a` -/

lemma atan2_nonneg {y x : ℝ} (hy : 0 ≤ y) (hx : 0 ≤ x) : 0 ≤ atan2 y x := by
  unfold atan2
  split_ifs with h1 h2 h3 h4 h5
  · have h0 : (0 : ℝ) ≤ y / x := div_nonneg hy h1.le
    have := Real.arctan_strictMono.monotone h0
    simpa [Real.arctan_zero] using this
  · linarith [h2.1]
  · linarith [h3]
  · linarith [Real.pi_pos]
  · linarith [h5]
  · exact le_refl 0

lemma atan2_le_pi_div_two {y x : ℝ} (hy : 0 ≤ y) (hx : 0 ≤ x) : atan2 y x ≤ π / 2 := by
  unfold atan2
  split_ifs with h1 h2 h3 h4 h5
  · exact (Real.arctan_lt_pi_div_two _).le
  · linarith [h2.1]
  · linarith [h3]
  · exact le_refl _
  · linarith [Real.pi_pos]
  · linarith [Real.pi_pos]

lemma sin_sq_half_eq (t : ℝ) : sin (t / 2) ^ 2 = (1 - cos t) / 2 := by
  have hc : cos (2 * (t / 2)) = 2 * cos (t / 2) ^ 2 - 1 := Real.cos_two_mul (t / 2)
  have hp : sin (t / 2) ^ 2 + cos (t / 2) ^ 2 = 1 := Real.sin_sq_add_cos_sq (t / 2)
  have h2 : (2 : ℝ) * (t / 2) = t := by ring
  rw [h2] at hc
  linarith

lemma dot_bounds (u v w : ℝ) :
    -1 ≤ sin u * sin v + cos u * cos v * cos w ∧
      sin u * sin v + cos u * cos v * cos w ≤ 1 := by
  have hu := Real.sin_sq_add_cos_sq u
  have hv := Real.sin_sq_add_cos_sq v
  have hw1 := Real.neg_one_le_cos w
  have hw2 := Real.cos_le_one w
  have hw : cos w ^ 2 ≤ 1 := by nlinarith
  have hv2 : cos v ^ 2 * cos w ^ 2 ≤ cos v ^ 2 := by nlinarith [sq_nonneg (cos v)]
  constructor
  · nlinarith [sq_nonneg (sin u + sin v), sq_nonneg (cos u + cos v * cos w)]
  · nlinarith [sq_nonneg (sin u - sin v), sq_nonneg (cos u - cos v * cos w)]

lemma hava_eq (lat1 lon1 lat2 lon2 : ℝ) :
    hava lat1 lon1 lat2 lon2 =
      (1 - (sin (radians lat1) * sin (radians lat2) +
        cos (radians lat1) * cos (radians lat2) * cos (radians (lon2 - lon1)))) / 2 := by
  have hlat : radians (lat2 - lat1) = radians lat2 - radians lat1 := by
    unfold radians; ring
  rw [hava, hlat, sin_sq_half_eq, sin_sq_half_eq, Real.cos_sub]
  ring

lemma hava_nonneg (lat1 lon1 lat2 lon2 : ℝ) : 0 ≤ hava lat1 lon1 lat2 lon2 := by
  rw [hava_eq]
  have := (dot_bounds (radians lat1) (radians lat2) (radians (lon2 - lon1))).2
  linarith

lemma hava_le_one (lat1 lon1 lat2 lon2 : ℝ) : hava lat1 lon1 lat2 lon2 ≤ 1 := by
  rw [hava_eq]
  have := (dot_bounds (radians lat1) (radians lat2) (radians (lon2 - lon1))).1
  linarith

lemma hava_self (lat lon : ℝ) : hava lat lon lat lon = 0 := by
  unfold hava radians
  simp

lemma haversine_self (lat lon : ℝ) : haversine lat lon lat lon = 0 := by
  unfold haversine
  rw [hava_self]
  norm_num [atan2, Real.arctan_zero]

lemma haversine_nonneg (lat1 lon1 lat2 lon2 : ℝ) : 0 ≤ haversine lat1 lon1 lat2 lon2 := by
  unfold haversine
  have h := atan2_nonneg (Real.sqrt_nonneg (hava lat1 lon1 lat2 lon2))
    (Real.sqrt_nonneg (1 - hava lat1 lon1 lat2 lon2))
  linarith

/-! ### Claim theorems: shaping policies and distance evaluator -/

/-- C4: for every input sequence, the head+tail truncation used for route
steps returns the sequence unchanged when its length is at most 10, and
returns exactly the first five elements followed by the last five (10
elements in all, order preserved within each kept segment) when the length
exceeds 10. -/
theorem shapeHeadTail_spec {α : Type _} (seq : List α) :
    (seq.length ≤ 10 → shapeHeadTail seq = seq) ∧
    (10 < seq.length →
      shapeHeadTail seq = seq.take 5 ++ seq.drop (seq.length - 5) ∧
        (shapeHeadTail seq).length = 10) := by
  constructor
  · intro h
    simp [shapeHeadTail, Nat.not_lt.mpr h]
  · intro h
    refine ⟨by simp [shapeHeadTail, h], ?_⟩
    simp only [shapeHeadTail, if_pos h, List.length_append, List.length_take,
      List.length_drop]
    omega

theorem shapeHeadTail_spec_witness :
    ((List.range 3).length ≤ 10 ∧ shapeHeadTail (List.range 3) = List.range 3) ∧
    (10 < (List.range 12).length ∧
      (shapeHeadTail (List.range 12) =
          (List.range 12).take 5 ++ (List.range 12).drop ((List.range 12).length - 5) ∧
        (shapeHeadTail (List.range 12)).length = 10)) :=
  ⟨⟨by decide, (shapeHeadTail_spec (List.range 3)).1 (by decide)⟩,
    ⟨by decide, (shapeHeadTail_spec (List.range 12)).2 (by decide)⟩⟩

/-- C5: the top-N truncation used for peak search returns a prefix of its
input of length `min (length seq) 3`: when fewer than 3 results exist all
of them are returned, and the output order is exactly the input order. -/
theorem shapeTopN_spec {α : Type _} (seq : List α) :
    (shapeTopN seq 3).length = min seq.length 3 ∧
      ∃ rest, shapeTopN seq 3 ++ rest = seq := by
  refine ⟨?_, seq.drop 3, List.take_append_drop 3 seq⟩
  simp [shapeTopN, Nat.min_comm]

/-- C6: the distance evaluator is total over the reals, returning a finite
non-negative number: `0 ≤ haversine ≤ 6371 π` for all inputs.  (In this
real-valued model the argument of the inner square root is never negative:
`hava ≤ 1` always.) -/
theorem haversine_total (lat1 lon1 lat2 lon2 : ℝ) :
    0 ≤ haversine lat1 lon1 lat2 lon2 ∧
      haversine lat1 lon1 lat2 lon2 ≤ 6371 * π ∧
      hava lat1 lon1 lat2 lon2 ≤ 1 := by
  refine ⟨haversine_nonneg _ _ _ _, ?_, hava_le_one _ _ _ _⟩
  unfold haversine
  have h := atan2_le_pi_div_two (Real.sqrt_nonneg (hava lat1 lon1 lat2 lon2))
    (Real.sqrt_nonneg (1 - hava lat1 lon1 lat2 lon2))
  linarith

/-- C7: the distance evaluator is symmetric in its two points, and the
distance from a point to itself is exactly 0 (in the real-valued model the
floating-point tolerance is not needed). -/
theorem haversine_symm_self (lat1 lon1 lat2 lon2 : ℝ) :
    haversine lat1 lon1 lat2 lon2 = haversine lat2 lon2 lat1 lon1 ∧
      haversine lat1 lon1 lat1 lon1 = 0 := by
  refine ⟨?_, haversine_self lat1 lon1⟩
  have ha : hava lat1 lon1 lat2 lon2 = hava lat2 lon2 lat1 lon1 := by
    rw [hava_eq, hava_eq]
    have hc : cos (radians (lon1 - lon2)) = cos (radians (lon2 - lon1)) := by
      rw [show radians (lon1 - lon2) = -(radians (lon2 - lon1)) by unfold radians; ring,
        Real.cos_neg]
    rw [hc]
    ring
  rw [haversine, haversine, ha]

/-! ### Rounding lemmas -/

lemma round2_zero : round2 0 = 0 := by
  unfold round2
  norm_num

lemma round2_bounds (x : ℝ) : x - 1 / 200 ≤ round2 x ∧ round2 x ≤ x + 1 / 200 := by
  have h := abs_sub_round (x * 100)
  rw [abs_le] at h
  unfold round2
  constructor <;> [linarith [h.2]; linarith [h.1]]

lemma round2_nonneg {x : ℝ} (hx : 0 ≤ x) : 0 ≤ round2 x := by
  unfold round2
  have h : (0 : ℤ) ≤ round (x * 100) := by
    rw [round_eq]
    exact Int.le_floor.mpr (by push_cast; linarith)
  positivity

/-! ### The distance along a meridian -/

lemma haversine_meridian (lat1 lat2 lon : ℝ) (h0 : 0 ≤ radians (lat2 - lat1))
    (hπ : radians (lat2 - lat1) < π) :
    haversine lat1 lon lat2 lon = 6371 * radians (lat2 - lat1) := by
  have ha : hava lat1 lon lat2 lon = sin (radians (lat2 - lat1) / 2) ^ 2 := by
    unfold hava
    have hz : radians (lon - lon) = 0 := by unfold radians; ring
    rw [hz]
    norm_num
  have ht0 : 0 ≤ radians (lat2 - lat1) / 2 := by linarith
  have htπ : radians (lat2 - lat1) / 2 < π / 2 := by linarith
  have hsin : 0 ≤ sin (radians (lat2 - lat1) / 2) :=
    Real.sin_nonneg_of_nonneg_of_le_pi ht0 (by linarith [Real.pi_pos])
  have hcos : 0 < cos (radians (lat2 - lat1) / 2) :=
    Real.cos_pos_of_mem_Ioo ⟨by linarith [Real.pi_pos], htπ⟩
  have h2 : 1 - sin (radians (lat2 - lat1) / 2) ^ 2 = cos (radians (lat2 - lat1) / 2) ^ 2 := by
    have := Real.sin_sq_add_cos_sq (radians (lat2 - lat1) / 2)
    linarith
  unfold haversine
  rw [ha, h2, Real.sqrt_sq hsin, Real.sqrt_sq hcos.le]
  unfold atan2
  rw [if_pos hcos, ← Real.tan_eq_sin_div_cos,
    Real.arctan_tan (by linarith [Real.pi_pos]) htπ]
  ring

/-! ### Membership structure of the proximity-search result -/

lemma exists_of_mem_get_ev_chargers {data : List ChargerSite} {lat lon r : ℝ}
    {e : EVChargerSite} (h : e ∈ get_ev_chargers data lat lon r) :
    ∃ s ∈ data, s.gps_latitude = some e.lat ∧ s.gps_longitude = some e.lon ∧
      haversine lat lon e.lat e.lon ≤ r ∧
      e = ⟨s.name.getD "Unnamed Site", e.lat, e.lon,
        round2 (haversine lat lon e.lat e.lon), s.status.getD "unknown"⟩ := by
  rw [get_ev_chargers, List.mem_insertionSort, nearbyChargers, List.mem_filterMap] at h
  obtain ⟨s, hs, hfs⟩ := h
  refine ⟨s, hs, ?_⟩
  unfold chargerEntry at hfs
  cases hlat : s.gps_latitude with
  | none => rw [hlat] at hfs; exact absurd hfs (by simp)
  | some slat =>
    cases hlon : s.gps_longitude with
    | none => rw [hlat, hlon] at hfs; exact absurd hfs (by simp)
    | some slon =>
      rw [hlat, hlon] at hfs
      simp only at hfs
      by_cases hle : haversine lat lon slat slon ≤ r
      · rw [if_pos hle] at hfs
        obtain rfl := Option.some_inj.mp hfs
        exact ⟨rfl, rfl, hle, rfl⟩
      · rw [if_neg hle] at hfs
        exact absurd hfs (by simp)

/-! ### Claim theorems: proximity search -/

/-- C1 (amended): every entry of the proximity-search result comes from a
dataset record with both coordinates present whose unrounded haversine
distance is at most the radius; the reported `distance_km` is that
distance rounded to two decimals, and hence is at most `r + 1/200` (it can
exceed `r` itself by up to half a rounding step). -/
theorem get_ev_chargers_radius_mem (data : List ChargerSite) (lat lon r : ℝ)
    (e : EVChargerSite) (h : e ∈ get_ev_chargers data lat lon r) :
    ∃ s ∈ data, s.gps_latitude = some e.lat ∧ s.gps_longitude = some e.lon ∧
      haversine lat lon e.lat e.lon ≤ r ∧
      e.distance_km = round2 (haversine lat lon e.lat e.lon) ∧
      e.distance_km ≤ r + 1 / 200 := by
  obtain ⟨s, hs, hlat, hlon, hle, he⟩ := exists_of_mem_get_ev_chargers h
  refine ⟨s, hs, hlat, hlon, hle, ?_, ?_⟩
  · rw [he]
  · rw [he]
    have := (round2_bounds (haversine lat lon e.lat e.lon)).2
    calc (round2 (haversine lat lon e.lat e.lon)) ≤
        haversine lat lon e.lat e.lon + 1 / 200 := this
      _ ≤ r + 1 / 200 := by linarith

/-- C1 (counterexample to the claim as stated): a site 0.006 km due north
of the query point, searched with radius exactly that distance, is
returned with reported `distance_km = 0.01`, which is strictly greater
than the radius. -/
theorem get_ev_chargers_rounded_exceeds_radius :
    get_ev_chargers [⟨some "A", some ((27 : ℝ) / 500000), some 0, some "available"⟩] 0 0
        (6371 * radians ((27 : ℝ) / 500000)) =
      [⟨"A", (27 : ℝ) / 500000, 0, 1 / 100, "available"⟩] ∧
      6371 * radians ((27 : ℝ) / 500000) < 1 / 100 := by
  have hpi1 := Real.pi_gt_d2
  have hpi2 := Real.pi_lt_d2
  have hq0 : 0 ≤ radians ((27 : ℝ) / 500000) := by unfold radians; nlinarith
  have hqπ : radians ((27 : ℝ) / 500000) < π := by unfold radians; nlinarith
  have hsub : ((27 : ℝ) / 500000) - 0 = (27 : ℝ) / 500000 := by ring
  have hmer : haversine 0 0 ((27 : ℝ) / 500000) 0 = 6371 * radians ((27 : ℝ) / 500000) := by
    have := haversine_meridian 0 ((27 : ℝ) / 500000) 0 (by rw [hsub]; exact hq0)
      (by rw [hsub]; exact hqπ)
    rwa [hsub] at this
  have hrc : round2 (6371 * radians ((27 : ℝ) / 500000)) = 1 / 100 := by
    unfold round2
    have hfl : round (6371 * radians ((27 : ℝ) / 500000) * 100) = 1 := by
      rw [round_eq]
      apply Int.floor_eq_iff.mpr
      constructor
      · push_cast
        unfold radians
        nlinarith
      · push_cast
        unfold radians
        nlinarith
    rw [hfl]
    norm_num
  have hlt : 6371 * radians ((27 : ℝ) / 500000) < 1 / 100 := by
    unfold radians
    nlinarith
  refine ⟨?_, hlt⟩
  have hentry : chargerEntry 0 0 (6371 * radians ((27 : ℝ) / 500000))
      ⟨some "A", some ((27 : ℝ) / 500000), some 0, some "available"⟩ =
      some ⟨"A", (27 : ℝ) / 500000, 0, 1 / 100, "available"⟩ := by
    unfold chargerEntry
    simp only
    rw [if_pos (by rw [hmer])]
    rw [hmer, hrc]
    rfl
  rw [get_ev_chargers, nearbyChargers, List.filterMap, hentry]
  simp [List.insertionSort, List.orderedInsert]

/-- C2 (amended): a strictly negative radius matches nothing, for every
dataset and query point; the result is the empty list, not an error.  (At
radius exactly 0 the comparison `dist <= radius` is inclusive, so sites at
haversine distance exactly 0 are still returned; see the counterexample.) -/
theorem get_ev_chargers_neg_radius (data : List ChargerSite) (lat lon r : ℝ) (h : r < 0) :
    get_ev_chargers data lat lon r = [] := by
  rw [get_ev_chargers, nearbyChargers]
  have hnone : ∀ s ∈ data, chargerEntry lat lon r s = none := by
    intro s _
    unfold chargerEntry
    cases hlat : s.gps_latitude with
    | none => simp
    | some slat =>
      cases hlon : s.gps_longitude with
      | none => simp
      | some slon =>
        simp only
        rw [if_neg]
        intro hle
        have := haversine_nonneg lat lon slat slon
        linarith
  rw [List.filterMap_eq_nil_iff.mpr hnone]
  rfl

theorem get_ev_chargers_neg_radius_witness :
    get_ev_chargers [⟨some "A", some 0, some 0, some "available"⟩] 0 0 (-1) = [] :=
  get_ev_chargers_neg_radius [⟨some "A", some 0, some 0, some "available"⟩] 0 0 (-1)
    (by norm_num)

/-- C2 (counterexample to the claim as stated): with radius exactly 0 and a
site exactly at the query point, the result is not empty — the site is
returned, because the filter comparison `dist <= radius_km` is inclusive
and the site's distance is exactly 0. -/
theorem get_ev_chargers_zero_radius_not_empty :
    get_ev_chargers [⟨some "A", some 0, some 0, some "available"⟩] 0 0 0 =
      [⟨"A", 0, 0, 0, "available"⟩] := by
  have hentry : chargerEntry 0 0 0 ⟨some "A", some 0, some 0, some "available"⟩ =
      some ⟨"A", 0, 0, 0, "available"⟩ := by
    unfold chargerEntry
    simp only
    rw [if_pos (by rw [haversine_self])]
    rw [haversine_self, round2_zero]
    rfl
  rw [get_ev_chargers, nearbyChargers, List.filterMap, hentry]
  simp [List.insertionSort, List.orderedInsert]

/-- C3: the proximity-search result is sorted non-decreasing by
`distance_km` for all inputs, and the empty dataset yields the empty list,
never an error. -/
theorem get_ev_chargers_sorted (data : List ChargerSite) (lat lon r : ℝ) :
    (get_ev_chargers data lat lon r).Sorted distLE ∧
      get_ev_chargers [] lat lon r = [] :=
  ⟨List.sorted_insertionSort distLE _, rfl⟩

/-- C9: every returned charger record takes its name from the dataset
record with the placeholder `"Unnamed Site"` when absent, its status with
default `"unknown"` when absent, and its `lat`/`lon` unchanged from the
record's gps coordinates. -/
theorem get_ev_chargers_defaults (data : List ChargerSite) (lat lon r : ℝ)
    (e : EVChargerSite) (h : e ∈ get_ev_chargers data lat lon r) :
    ∃ s ∈ data, s.gps_latitude = some e.lat ∧ s.gps_longitude = some e.lon ∧
      e.name = s.name.getD "Unnamed Site" ∧ e.status = s.status.getD "unknown" := by
  obtain ⟨s, hs, hlat, hlon, _, he⟩ := exists_of_mem_get_ev_chargers h
  exact ⟨s, hs, hlat, hlon, by rw [he], by rw [he]⟩

theorem get_ev_chargers_radius_mem_witness :
    (⟨"A", 0, 0, 0, "available"⟩ : EVChargerSite) ∈
        get_ev_chargers [⟨some "A", some 0, some 0, some "available"⟩] 0 0 50 ∧
      ∃ s ∈ [(⟨some "A", some 0, some 0, some "available"⟩ : ChargerSite)],
        s.gps_latitude = some 0 ∧ s.gps_longitude = some 0 ∧
          haversine 0 0 0 0 ≤ 50 ∧ (0 : ℝ) = round2 (haversine 0 0 0 0) ∧
          (0 : ℝ) ≤ 50 + 1 / 200 := by
  have hmem : (⟨"A", 0, 0, 0, "available"⟩ : EVChargerSite) ∈
      get_ev_chargers [⟨some "A", some 0, some 0, some "available"⟩] 0 0 50 := by
    have hentry : chargerEntry 0 0 50 ⟨some "A", some 0, some 0, some "available"⟩ =
        some ⟨"A", 0, 0, 0, "available"⟩ := by
      unfold chargerEntry
      simp only
      rw [if_pos (by rw [haversine_self]; norm_num)]
      rw [haversine_self, round2_zero]
      rfl
    rw [get_ev_chargers, nearbyChargers, List.filterMap, hentry]
    simp [List.insertionSort, List.orderedInsert]
  exact ⟨hmem, get_ev_chargers_radius_mem _ 0 0 50 _ hmem⟩

theorem get_ev_chargers_defaults_witness :
    (⟨"Unnamed Site", 0, 0, 0, "unknown"⟩ : EVChargerSite) ∈
        get_ev_chargers [⟨none, some 0, some 0, none⟩] 0 0 50 ∧
      ∃ s ∈ [(⟨none, some 0, some 0, none⟩ : ChargerSite)],
        s.gps_latitude = some 0 ∧ s.gps_longitude = some 0 ∧
          "Unnamed Site" = s.name.getD "Unnamed Site" ∧
          "unknown" = s.status.getD "unknown" := by
  have hmem : (⟨"Unnamed Site", 0, 0, 0, "unknown"⟩ : EVChargerSite) ∈
      get_ev_chargers [⟨none, some 0, some 0, none⟩] 0 0 50 := by
    have hentry : chargerEntry 0 0 50 ⟨none, some 0, some 0, none⟩ =
        some ⟨"Unnamed Site", 0, 0, 0, "unknown"⟩ := by
      unfold chargerEntry
      simp only
      rw [if_pos (by rw [haversine_self]; norm_num)]
      rw [haversine_self, round2_zero]
      rfl
    rw [get_ev_chargers, nearbyChargers, List.filterMap, hentry]
    simp [List.insertionSort, List.orderedInsert]
  exact ⟨hmem, get_ev_chargers_defaults _ 0 0 50 _ hmem⟩

/-! ### Numerical bounds for concrete scenario 1

The spec's scenario 1 queries the two-site dataset A = (37, -122),
B = (37.1, -122.1) from (37, -122) with radius 50.  The distance to B is
pinned to the interval (14.21, 14.24) by elementary bounds: rational
interval arithmetic on `sin`/`cos` via the Taylor estimates
`Real.sin_bound` and `Real.sin_gt_sub_cube`, the half-angle identity for
the two cosines, and `sin t ≤ t ≤ tan t` to trap the arctangent. -/

lemma mul_bounds_lt {x y a b : ℝ} (hx : a < x) (hy : b < y) (ha : 0 < a)
    (hb : 0 < b) : a * b < x * y := by nlinarith

lemma mul_bounds_gt {x y a b : ℝ} (hx : x < a) (hy : y < b) (hx0 : 0 ≤ x)
    (hy0 : 0 ≤ y) : x * y < a * b := by nlinarith

lemma cos_double_sin_sq (t : ℝ) : cos (2 * t) = 1 - 2 * sin t ^ 2 := by
  have hc := Real.cos_two_mul t
  have hp := Real.sin_sq_add_cos_sq t
  linarith

lemma sin_interval (y lo hi : ℝ) (hy0 : 0 ≤ y) (hy1 : y ≤ 1)
    (hlo : lo ≤ y - y ^ 3 / 6 - y ^ 4 * (5 / 96))
    (hhi : y - y ^ 3 / 6 + y ^ 4 * (5 / 96) ≤ hi) : lo ≤ sin y ∧ sin y ≤ hi := by
  have hb := Real.sin_bound (x := y) (by rw [abs_of_nonneg hy0]; exact hy1)
  rw [abs_of_nonneg hy0, abs_le] at hb
  constructor <;> linarith [hb.1, hb.2]

lemma s_bounds :
    (87265 : ℝ) / 100000000 < sin (π / 3600) ∧
      sin (π / 3600) < (87267 : ℝ) / 100000000 := by
  have hπ1 := Real.pi_gt_d6
  have hπ2 := Real.pi_lt_d6
  have hx0 : (0 : ℝ) < π / 3600 := by linarith
  have hx1 : π / 3600 ≤ 1 := by linarith
  have hxm : π / 3600 < 1 / 1000 := by linarith
  have hx3 : (π / 3600) ^ 3 < (1 / 1000 : ℝ) ^ 3 :=
    pow_lt_pow_left₀ hxm hx0.le (by norm_num)
  constructor
  · have hgt := Real.sin_gt_sub_cube hx0 hx1
    nlinarith
  · have hlt := Real.sin_lt hx0
    linarith

lemma c1_bounds :
    (7979 : ℝ) / 10000 < cos (37 * π / 180) ∧
      cos (37 * π / 180) < (7994 : ℝ) / 10000 := by
  have hπ1 := Real.pi_gt_d6
  have hπ2 := Real.pi_lt_d6
  have h2t : (37 : ℝ) * π / 180 = 2 * (37 * π / 360) := by ring
  rw [h2t, cos_double_sin_sq]
  have hya : (322885 : ℝ) / 1000000 < 37 * π / 360 := by linarith
  have hyb : 37 * π / 360 < (322886 : ℝ) / 1000000 := by linarith
  have hy0 : (0 : ℝ) ≤ 37 * π / 360 := by linarith
  have hy1 : 37 * π / 360 ≤ 1 := by linarith
  have hy3b : (37 * π / 360) ^ 3 < ((322886 : ℝ) / 1000000) ^ 3 :=
    pow_lt_pow_left₀ hyb hy0 (by norm_num)
  have hy3a : ((322885 : ℝ) / 1000000) ^ 3 < (37 * π / 360) ^ 3 :=
    pow_lt_pow_left₀ hya (by norm_num) (by norm_num)
  have hy4b : (37 * π / 360) ^ 4 < ((322886 : ℝ) / 1000000) ^ 4 :=
    pow_lt_pow_left₀ hyb hy0 (by norm_num)
  have hy4a : (0 : ℝ) ≤ (37 * π / 360) ^ 4 := by positivity
  obtain ⟨hslo, hshi⟩ := sin_interval (37 * π / 360) ((316708 : ℝ) / 1000000)
    ((317842 : ℝ) / 1000000) hy0 hy1 (by nlinarith) (by nlinarith)
  have hspos : (0 : ℝ) < sin (37 * π / 360) := by linarith
  constructor <;> nlinarith

lemma c2_bounds :
    (7968 : ℝ) / 10000 < cos (371 * π / 1800) ∧
      cos (371 * π / 1800) < (7984 : ℝ) / 10000 := by
  have hπ1 := Real.pi_gt_d6
  have hπ2 := Real.pi_lt_d6
  have h2t : (371 : ℝ) * π / 1800 = 2 * (371 * π / 3600) := by ring
  rw [h2t, cos_double_sin_sq]
  have hya : (323758 : ℝ) / 1000000 < 371 * π / 3600 := by linarith
  have hyb : 371 * π / 3600 < (323759 : ℝ) / 1000000 := by linarith
  have hy0 : (0 : ℝ) ≤ 371 * π / 3600 := by linarith
  have hy1 : 371 * π / 3600 ≤ 1 := by linarith
  have hy3b : (371 * π / 3600) ^ 3 < ((323759 : ℝ) / 1000000) ^ 3 :=
    pow_lt_pow_left₀ hyb hy0 (by norm_num)
  have hy3a : ((323758 : ℝ) / 1000000) ^ 3 < (371 * π / 3600) ^ 3 :=
    pow_lt_pow_left₀ hya (by norm_num) (by norm_num)
  have hy4b : (371 * π / 3600) ^ 4 < ((323759 : ℝ) / 1000000) ^ 4 :=
    pow_lt_pow_left₀ hyb hy0 (by norm_num)
  have hy4a : (0 : ℝ) ≤ (371 * π / 3600) ^ 4 := by positivity
  obtain ⟨hslo, hshi⟩ := sin_interval (371 * π / 3600) ((317529 : ℝ) / 1000000)
    ((318705 : ℝ) / 1000000) hy0 hy1 (by nlinarith) (by nlinarith)
  have hspos : (0 : ℝ) < sin (371 * π / 3600) := by linarith
  constructor <;> nlinarith

lemma hava_B_eq :
    hava 37 (-122) 37.1 (-122.1) =
      sin (π / 3600) ^ 2 * (1 + cos (37 * π / 180) * cos (371 * π / 1800)) := by
  have e1 : radians ((37.1 : ℝ) - 37) / 2 = π / 3600 := by
    rw [show ((37.1 : ℝ) - 37) = 1 / 10 by norm_num]
    unfold radians
    ring
  have e2 : radians ((-122.1 : ℝ) - -122) / 2 = -(π / 3600) := by
    rw [show ((-122.1 : ℝ) - -122) = -(1 / 10) by norm_num]
    unfold radians
    ring
  have e3 : radians 37 = 37 * π / 180 := rfl
  have e4 : radians (37.1 : ℝ) = 371 * π / 1800 := by
    unfold radians
    rw [show (37.1 : ℝ) = 371 / 10 by norm_num]
    ring
  unfold hava
  rw [e1, e2, e3, e4, Real.sin_neg]
  ring

set_option maxHeartbeats 1000000 in
lemma dB_bounds :
    (1421 : ℝ) / 100 < haversine 37 (-122) 37.1 (-122.1) ∧
      haversine 37 (-122) 37.1 (-122.1) < (1424 : ℝ) / 100 := by
  obtain ⟨hc1a, hc1b⟩ := c1_bounds
  obtain ⟨hc2a, hc2b⟩ := c2_bounds
  obtain ⟨hsa, hsb⟩ := s_bounds
  have hs0 : (0 : ℝ) < sin (π / 3600) := by linarith
  have hc10 : (0 : ℝ) < cos (37 * π / 180) := by linarith
  have hc20 : (0 : ℝ) < cos (371 * π / 1800) := by linarith
  unfold haversine
  obtain ⟨A, hA⟩ : ∃ a, a = hava 37 (-122) 37.1 (-122.1) := ⟨_, rfl⟩
  rw [← hA]
  have hAeq : A = sin (π / 3600) ^ 2 *
      (1 + cos (37 * π / 180) * cos (371 * π / 1800)) := by rw [hA]; exact hava_B_eq
  have hA0 : 0 ≤ A := by rw [hA]; exact hava_nonneg _ _ _ _
  have hA1 : A ≤ 1 := by rw [hA]; exact hava_le_one _ _ _ _
  have hPlo : ((7979 : ℝ) / 10000) * ((7968 : ℝ) / 10000) <
      cos (37 * π / 180) * cos (371 * π / 1800) :=
    mul_bounds_lt hc1a hc2a (by norm_num) (by norm_num)
  have hPhi : cos (37 * π / 180) * cos (371 * π / 1800) <
      ((7994 : ℝ) / 10000) * ((7984 : ℝ) / 10000) :=
    mul_bounds_gt hc1b hc2b hc10.le hc20.le
  have hSlo : ((87265 : ℝ) / 100000000) ^ 2 < sin (π / 3600) ^ 2 := by
    nlinarith [hsa, hs0]
  have hShi : sin (π / 3600) ^ 2 < ((87267 : ℝ) / 100000000) ^ 2 := by
    nlinarith [hsb, hs0]
  have hAlo : ((111555 : ℝ) / 100000000) ^ 2 < A := by
    calc ((111555 : ℝ) / 100000000) ^ 2 <
        ((87265 : ℝ) / 100000000) ^ 2 *
          (1 + ((7979 : ℝ) / 10000) * ((7968 : ℝ) / 10000)) := by norm_num
      _ < sin (π / 3600) ^ 2 *
          (1 + cos (37 * π / 180) * cos (371 * π / 1800)) :=
        mul_bounds_lt hSlo (by linarith) (by norm_num) (by norm_num)
      _ = A := hAeq.symm
  have hAhi : A < ((11171 : ℝ) / 10000000) ^ 2 := by
    calc A = sin (π / 3600) ^ 2 *
        (1 + cos (37 * π / 180) * cos (371 * π / 1800)) := hAeq
      _ < ((87267 : ℝ) / 100000000) ^ 2 *
          (1 + ((7994 : ℝ) / 10000) * ((7984 : ℝ) / 10000)) :=
        mul_bounds_gt hShi (by linarith) (sq_nonneg _) (by nlinarith [hPlo])
      _ < ((11171 : ℝ) / 10000000) ^ 2 := by norm_num
  have hu_lo : (111555 : ℝ) / 100000000 < Real.sqrt A :=
    (Real.lt_sqrt (by norm_num)).mpr hAlo
  have hu_hi : Real.sqrt A < (11171 : ℝ) / 10000000 :=
    (Real.sqrt_lt' (by norm_num)).mpr hAhi
  have hv_lo : (9999 : ℝ) / 10000 < Real.sqrt (1 - A) :=
    (Real.lt_sqrt (by norm_num)).mpr (by nlinarith [hAhi])
  have hv0 : (0 : ℝ) < Real.sqrt (1 - A) := by linarith
  have hu0 : (0 : ℝ) < Real.sqrt A := by linarith
  unfold atan2
  rw [if_pos hv0]
  obtain ⟨z, hz⟩ : ∃ z, Real.sqrt A / Real.sqrt (1 - A) = z := ⟨_, rfl⟩
  rw [hz]
  have hzpos : 0 < z := hz ▸ div_pos hu0 hv0
  have ht0 : 0 < arctan z := by
    have := Real.arctan_strictMono hzpos
    rwa [Real.arctan_zero] at this
  have htπ : arctan z < π / 2 := Real.arctan_lt_pi_div_two z
  have husq : Real.sqrt A ^ 2 = A := Real.sq_sqrt hA0
  have hvsq : Real.sqrt (1 - A) ^ 2 = 1 - A := Real.sq_sqrt (by linarith)
  have h1A : (0 : ℝ) < 1 - A := by nlinarith [hv0, hvsq]
  constructor
  · -- lower bound: sqrt A = sin (arctan z) < arctan z
    have hsin_eq : sin (arctan z) = Real.sqrt A := by
      rw [Real.sin_arctan]
      have hzz : 1 + z ^ 2 = ((1 : ℝ) / Real.sqrt (1 - A)) ^ 2 := by
        rw [← hz, div_pow, div_pow, husq, hvsq]
        field_simp
      rw [hzz, Real.sqrt_sq (by positivity), ← hz]
      field_simp
    have hlt := Real.sin_lt ht0
    rw [hsin_eq] at hlt
    nlinarith [hu_lo, hlt]
  · -- upper bound: arctan z < tan (arctan z) = z
    have htan := Real.lt_tan ht0 htπ
    rw [Real.tan_arctan] at htan
    have hmul : arctan z * Real.sqrt (1 - A) < Real.sqrt A := by
      calc arctan z * Real.sqrt (1 - A) < z * Real.sqrt (1 - A) :=
          mul_lt_mul_of_pos_right htan hv0
        _ = Real.sqrt A := by rw [← hz]; field_simp
    nlinarith [hmul, hv_lo, ht0, hu_hi]

/-- Evaluation of the spec's concrete scenario 1: both sites pass the
50 km filter, and the sort puts A (distance 0) before B. -/
lemma scenario1_eval :
    get_ev_chargers [⟨some "A", some 37, some (-122), some "available"⟩,
        ⟨some "B", some 37.1, some (-122.1), some "busy"⟩] 37 (-122) 50 =
      [⟨"A", 37, -122, 0, "available"⟩,
        ⟨"B", 37.1, -122.1, round2 (haversine 37 (-122) 37.1 (-122.1)), "busy"⟩] := by
  have hdB := dB_bounds
  have hentryA : chargerEntry 37 (-122) 50 ⟨some "A", some 37, some (-122), some "available"⟩ =
      some ⟨"A", 37, -122, 0, "available"⟩ := by
    unfold chargerEntry
    simp only
    rw [if_pos (by rw [haversine_self]; norm_num)]
    rw [haversine_self, round2_zero]
    rfl
  have hentryB : chargerEntry 37 (-122) 50 ⟨some "B", some 37.1, some (-122.1), some "busy"⟩ =
      some ⟨"B", 37.1, -122.1, round2 (haversine 37 (-122) 37.1 (-122.1)), "busy"⟩ := by
    unfold chargerEntry
    simp only
    rw [if_pos (by linarith [hdB.2])]
    rfl
  have hnear : nearbyChargers [⟨some "A", some 37, some (-122), some "available"⟩,
      ⟨some "B", some 37.1, some (-122.1), some "busy"⟩] 37 (-122) 50 =
      [⟨"A", 37, -122, 0, "available"⟩,
        ⟨"B", 37.1, -122.1, round2 (haversine 37 (-122) 37.1 (-122.1)), "busy"⟩] := by
    rw [nearbyChargers]
    simp [List.filterMap_cons, hentryA, hentryB]
  rw [get_ev_chargers, hnear]
  have hle : distLE ⟨"A", 37, -122, 0, "available"⟩
      ⟨"B", 37.1, -122.1, round2 (haversine 37 (-122) 37.1 (-122.1)), "busy"⟩ := by
    show (0 : ℝ) ≤ round2 (haversine 37 (-122) 37.1 (-122.1))
    exact round2_nonneg (haversine_nonneg _ _ _ _)
  simp [List.insertionSort, List.orderedInsert, hle]

/-- C8 (counterexample to the claim as stated): in scenario 1, the second
entry's reported `distance_km` exceeds 14, so it is not approximately
13.9 (it differs from 13.9 by more than 0.1). -/
theorem scenario1_distance_not_13_9 :
    get_ev_chargers [⟨some "A", some 37, some (-122), some "available"⟩,
        ⟨some "B", some 37.1, some (-122.1), some "busy"⟩] 37 (-122) 50 =
      [⟨"A", 37, -122, 0, "available"⟩,
        ⟨"B", 37.1, -122.1, round2 (haversine 37 (-122) 37.1 (-122.1)), "busy"⟩] ∧
      (139 : ℝ) / 10 + 1 / 10 < round2 (haversine 37 (-122) 37.1 (-122.1)) := by
  refine ⟨scenario1_eval, ?_⟩
  have h := dB_bounds
  have hr := (round2_bounds (haversine 37 (-122) 37.1 (-122.1))).1
  linarith

/-- C8 (amended): scenario 1 returns both sites, A first with
`distance_km` exactly 0, B second with `distance_km` approximately 14.23
(within 0.05) — not 13.9. -/
theorem scenario1_result :
    get_ev_chargers [⟨some "A", some 37, some (-122), some "available"⟩,
        ⟨some "B", some 37.1, some (-122.1), some "busy"⟩] 37 (-122) 50 =
      [⟨"A", 37, -122, 0, "available"⟩,
        ⟨"B", 37.1, -122.1, round2 (haversine 37 (-122) 37.1 (-122.1)), "busy"⟩] ∧
      |round2 (haversine 37 (-122) 37.1 (-122.1)) - 1423 / 100| ≤ 1 / 20 := by
  refine ⟨scenario1_eval, ?_⟩
  have h := dB_bounds
  have hr := round2_bounds (haversine 37 (-122) 37.1 (-122.1))
  rw [abs_le]
  constructor <;> linarith [hr.1, hr.2, h.1, h.2]

/-! ### Exception-handler control flow of `geocode_location` and `get_route`

The two HTTP handlers are modelled as functions of the upstream outcome:
`Except String _` stands for the network call and JSON parse (`.error` is
a raised network/parse exception), and the handler body's `raise
HTTPException` statements become `.error` values.  The trailing
`except Exception` block of each handler catches every exception raised in
the `try` block — including the `HTTPException`s raised inside it, since
`HTTPException` is an `Exception` subclass — and re-raises status 500. -/

/-- An `HTTPException` as raised in `main.py`: its status code and the
`error` tag of its detail payload. -/
structure HTTPError where
  status_code : ℕ
  error : String

/-- One result object of the Nominatim geocoding response, with the
numeric conversions `float(result["lat"])` / `float(result["lon"])`
already applied. -/
structure GeoResult where
  lat : ℝ
  lon : ℝ
  display_name : Option String

/-- The `GeocodeResponse` model of `main.py` (the `meta` dict of
`type`/`importance` carries no specified behaviour and is omitted). -/
structure GeocodeResponse where
  latitude : ℝ
  longitude : ℝ
  location_name : Option String

/-- The `try` block of `geocode_location` after the upstream response has
been parsed into `data`: an empty result list raises the 404
`LOCATION_NOT_FOUND` `HTTPException`, otherwise `data[0]` is reshaped. -/
def geocode_body (data : List GeoResult) : Except HTTPError GeocodeResponse :=
  match data with
  | [] => .error ⟨404, "LOCATION_NOT_FOUND"⟩
  | result :: _ => .ok ⟨result.lat, result.lon, result.display_name⟩

/-- The whole `geocode_location` handler: any exception escaping the `try`
block — a network/parse failure or the 404 raised by the body — is caught
by `except Exception` and re-raised as status 500 `GEOCODING_FAILED`. -/
def geocode_location (upstream : Except String (List GeoResult)) :
    Except HTTPError GeocodeResponse :=
  match upstream with
  | .error _ => .error ⟨500, "GEOCODING_FAILED"⟩
  | .ok data =>
    match geocode_body data with
    | .ok v => .ok v
    | .error _ => .error ⟨500, "GEOCODING_FAILED"⟩

/-- One step of an OpenRouteService route segment. -/
structure RouteStep where
  instruction : String

/-- One segment of an OpenRouteService route feature. -/
structure RouteSegment where
  steps : List RouteStep

/-- One feature of the OpenRouteService GeoJSON response: its
`properties.summary` distance (meters) and duration (seconds), and its
`properties.segments`. -/
structure RouteFeature where
  distance : ℝ
  duration : ℝ
  segments : List RouteSegment

/-- The parsed OpenRouteService response: HTTP status code and feature
list. -/
structure RouteUpstream where
  status_code : ℕ
  features : List RouteFeature

/-- The `RouteSummary` model of `main.py`.  The wall-clock-dependent
`estimated_arrival` field is omitted; `end_` models the Python field
`end`, a reserved word in Lean. -/
structure RouteSummary where
  distance_km : ℝ
  duration_min : ℝ
  steps : List String
  start : List ℝ
  end_ : List ℝ

/-- The `try` block of `get_route` after the upstream call: a non-200
upstream status raises an `HTTPException` carrying that status; an empty
feature list raises the 500 `NO_ROUTE_FOUND`; an empty segment or
coordinate list raises `IndexError` (`[0]` / `[-1]` on an empty list,
modelled with status 0 since a Python `IndexError` carries no HTTP
status); otherwise the summary is built, applying the head+tail truncation
`steps[:5] + steps[-5:] if len(steps) > 10 else steps` to the step
instructions. -/
noncomputable def get_route_body (coordinates : List (List ℝ)) (resp : RouteUpstream) :
    Except HTTPError RouteSummary :=
  if resp.status_code ≠ 200 then .error ⟨resp.status_code, "ORS_API_FAILED"⟩
  else
    match resp.features with
    | [] => .error ⟨500, "NO_ROUTE_FOUND"⟩
    | f :: _ =>
      match f.segments with
      | [] => .error ⟨0, "IndexError"⟩
      | seg :: _ =>
        match coordinates with
        | [] => .error ⟨0, "IndexError"⟩
        | c :: cs =>
          .ok ⟨round2 (f.distance / 1000), round2 (f.duration / 60),
            (shapeHeadTail seg.steps).map RouteStep.instruction, c,
            (c :: cs).getLast (by simp)⟩

/-- The whole `get_route` handler: any exception escaping the `try` block —
network failure, the upstream-status `HTTPException`, `NO_ROUTE_FOUND`, or
an `IndexError` — is caught by `except Exception` and re-raised as status
500 `ROUTE_ERROR`. -/
noncomputable def get_route (coordinates : List (List ℝ)) (upstream : Except String RouteUpstream) :
    Except HTTPError RouteSummary :=
  match upstream with
  | .error _ => .error ⟨500, "ROUTE_ERROR"⟩
  | .ok resp =>
    match get_route_body coordinates resp with
    | .ok v => .ok v
    | .error _ => .error ⟨500, "ROUTE_ERROR"⟩

/-- C10: the domain `HTTPException`s raised inside the `try` blocks (the
404 `LOCATION_NOT_FOUND`, the upstream-status error, `NO_ROUTE_FOUND`) are
themselves caught by the trailing `except Exception` handler, so every
error either endpoint returns has status 500 with the generic
`GEOCODING_FAILED` / `ROUTE_ERROR` tag — a 404 or upstream status code is
never returned. -/
theorem handlers_only_error_with_500 (u : Except String (List GeoResult))
    (coordinates : List (List ℝ)) (u' : Except String RouteUpstream) :
    (∀ err, geocode_location u = .error err →
      err.status_code = 500 ∧ err.error = "GEOCODING_FAILED") ∧
    (∀ err, get_route coordinates u' = .error err →
      err.status_code = 500 ∧ err.error = "ROUTE_ERROR") := by
  constructor
  · intro err h
    cases u with
    | error e =>
      unfold geocode_location at h
      injection h with h1
      rw [← h1]
      exact ⟨rfl, rfl⟩
    | ok data =>
      simp only [geocode_location] at h
      cases hb : geocode_body data with
      | ok v => rw [hb] at h; exact absurd h (by simp)
      | error e =>
        rw [hb] at h
        injection h with h1
        rw [← h1]
        exact ⟨rfl, rfl⟩
  · intro err h
    cases u' with
    | error e =>
      unfold get_route at h
      injection h with h1
      rw [← h1]
      exact ⟨rfl, rfl⟩
    | ok resp =>
      simp only [get_route] at h
      cases hb : get_route_body coordinates resp with
      | ok v => rw [hb] at h; exact absurd h (by simp)
      | error e =>
        rw [hb] at h
        injection h with h1
        rw [← h1]
        exact ⟨rfl, rfl⟩

theorem handlers_only_error_with_500_witness :
    geocode_location (.ok ([] : List GeoResult)) = .error ⟨500, "GEOCODING_FAILED"⟩ ∧
      ((⟨500, "GEOCODING_FAILED"⟩ : HTTPError).status_code = 500 ∧
        (⟨500, "GEOCODING_FAILED"⟩ : HTTPError).error = "GEOCODING_FAILED") ∧
    get_route [] (.ok ⟨404, []⟩) = .error ⟨500, "ROUTE_ERROR"⟩ ∧
      ((⟨500, "ROUTE_ERROR"⟩ : HTTPError).status_code = 500 ∧
        (⟨500, "ROUTE_ERROR"⟩ : HTTPError).error = "ROUTE_ERROR") := by
  have h1 : geocode_location (.ok ([] : List GeoResult)) =
      .error ⟨500, "GEOCODING_FAILED"⟩ := rfl
  have h2 : get_route [] (.ok ⟨404, []⟩) = .error ⟨500, "ROUTE_ERROR"⟩ := by
    unfold get_route get_route_body
    norm_num
  exact ⟨h1, (handlers_only_error_with_500 (.ok []) [] (.ok ⟨404, []⟩)).1 _ h1, h2,
    (handlers_only_error_with_500 (.ok []) [] (.ok ⟨404, []⟩)).2 _ h2⟩

end RoutePlanning
